import Mathlib

/-
  Verification of the "registration and draw" core of the fitki-event-manager
  repository (Go).  Two components are embedded:

  * the winner-selection routine of `handleGetWinners`
    (service package, lines 643-672 of the handler file), and
  * the per-chat conversation state machine of the telegram package
    (`processUpdate`, `getState`, `setState` in telegram/telegram.go).

  Machine integers (Go `int`, `int64`, `int32`) are modelled as `Int`;
  none of the verified properties exercises overflow.  The process-wide
  random source (`rand.IntN`) is modelled by an injected draw sequence
  `picks : Nat → Nat`; the i-th draw uses `picks i % poolSize`, which ranges
  over exactly the indices `rand.IntN poolSize` can return.
-/

namespace GiveawayTool

/-- Row of the `users` table as produced by sqlc (fields used by the core:
`ID`, `Name`, `Username`, `TgID`, `EventID` and the repeat-weight `N`,
an `int32` in Go, admin-editable via `UpdateUserN`). -/
structure Users where
  ID : Int
  Name : String
  Username : String
  TgID : Int
  EventID : Int
  N : Int
deriving DecidableEq

/-- Slot-expansion step of `handleGetWinners` (lines 643-651): iterate over
the original roster in order and, for each user with `N > 1`, append `N - 1`
further copies of that user at the end of the slice. -/
def extraSlots : List Users → List Users
  | [] => []
  | u :: rest => List.replicate (u.N - 1).toNat u ++ extraSlots rest

/-- The weighted pool after expansion: the original slice followed by the
appended copies, in roster order. -/
def expandPool (users : List Users) : List Users :=
  users ++ extraSlots users

/-- Clamp of lines 654-657: `winnersCount := count; if winnersCount >
len(users) { winnersCount = len(users) }`.  Note that a negative `count`
is left negative. -/
def winnersCount (poolLen : Nat) (count : Int) : Int :=
  if count > (poolLen : Int) then (poolLen : Int) else count

/-- Selection loop of lines 660-672.  `i` is the loop counter (indexing into
the draw sequence), `r` the number of iterations left.  Each iteration picks
index `picks i % len(pool)`, appends that slot to the winners and removes
only that one slot (`users = append(users[:index], users[index+1:]...)`). -/
def drawFrom (picks : Nat → Nat) : Nat → Nat → List Users → List Users
  | _, 0, _ => []
  | _, _ + 1, [] => []
  | i, r + 1, u :: rest =>
      let pool := u :: rest
      let index := picks i % pool.length
      pool.getD index u :: drawFrom picks (i + 1) r (pool.eraseIdx index)

/-- The winner-selection core of `handleGetWinners` (lines 643-672):
expand the roster into the weighted pool, clamp the requested count to the
pool size, then draw that many slots at random without replacing the drawn
slot.  Go iterates `for i := 0; i < winnersCount; i++`, i.e. `max 0
winnersCount` times, which is `Int.toNat` of the clamp. -/
def selectWinners (picks : Nat → Nat) (users : List Users) (count : Int) : List Users :=
  let pool := expandPool users
  drawFrom picks 0 (winnersCount pool.length count).toNat pool

/-- The empty pool draws nothing, whatever the iteration budget. -/
theorem drawFrom_nil (picks : Nat → Nat) (i r : Nat) :
    drawFrom picks i r [] = [] := by
  cases r with
  | zero => rfl
  | succ n => rfl

/-- Concrete registrant with repeat-weight 2, used to exercise the selector. -/
def uB : Users := { ID := 1, Name := "B", Username := "b", TgID := 100, EventID := 1, N := 2 }

/-- Concrete registrant with repeat-weight 3. -/
def uB3 : Users := { ID := 2, Name := "C", Username := "c", TgID := 200, EventID := 1, N := 3 }

/-- Concrete registrant with repeat-weight 1. -/
def uA : Users := { ID := 3, Name := "A", Username := "a", TgID := 300, EventID := 1, N := 1 }

/-- C1: the code violates the at-most-once guarantee.  On the roster
`[{B, n = 2}]` with `count = 2`, when the random source returns index 0
twice, the selector returns registrant B twice: only the drawn slot is
removed from the pool, so B's second weighted slot survives the first draw
and is drawn again. -/
theorem selectWinners_can_repeat_registrant :
    selectWinners (fun _ => 0) [uB] 2 = [uB, uB] ∧
      (selectWinners (fun _ => 0) [uB] 2).count uB = 2 := by
  constructor
  · rfl
  · rfl

/-- C3: the code violates the length contract.  On the roster `[{C, n = 3}]`
(one distinct registrant) with `count = 5 ≥ 1`, the selector returns 3
winners — `min (count, weighted pool size)`, not
`min (count, distinct registrants) = 1` — and the single registrant appears
3 times rather than exactly once. -/
theorem selectWinners_length_exceeds_distinct :
    (selectWinners (fun _ => 0) [uB3] 5).length = 3 ∧
      (selectWinners (fun _ => 0) [uB3] 5).count uB3 = 3 ∧
      min (5 : Nat) ([uB3].length) = 1 := by
  refine ⟨rfl, rfl, rfl⟩

/-- C8: the selector never faults on the edge cases: a requested count of 0
yields the empty winners list for every roster, and the empty roster yields
the empty winners list for every requested count. -/
theorem selectWinners_zero_or_empty (picks : Nat → Nat) (roster : List Users) (count : Int) :
    selectWinners picks roster 0 = [] ∧ selectWinners picks [] count = [] := by
  constructor
  · show drawFrom picks 0 (winnersCount (expandPool roster).length 0).toNat (expandPool roster) = []
    have h0 : winnersCount (expandPool roster).length 0 = 0 := by
      unfold winnersCount
      split <;> omega
    rw [h0]
    rfl
  · show drawFrom picks 0 (winnersCount (expandPool []).length count).toNat (expandPool []) = []
    exact drawFrom_nil picks 0 _

/-- C10: a negative requested count is left negative by the clamp, the
selection loop runs zero iterations, and the selector returns the empty
winners list rather than faulting. -/
theorem selectWinners_negative_count (picks : Nat → Nat) (roster : List Users)
    (count : Int) (h : count < 0) :
    selectWinners picks roster count = [] := by
  show drawFrom picks 0 (winnersCount (expandPool roster).length count).toNat (expandPool roster) = []
  have h1 : winnersCount (expandPool roster).length count = count := by
    unfold winnersCount
    rw [if_neg]
    omega
  rw [h1]
  have h2 : count.toNat = 0 := Int.toNat_of_nonpos (le_of_lt h)
  rw [h2]
  rfl

/-- C10 witness: the selector applied to a one-element roster and count -1
returns the empty list. -/
theorem selectWinners_negative_count_witness :
    (-1 : Int) < 0 ∧ selectWinners (fun _ => 0) [uA] (-1) = [] :=
  ⟨by decide, selectWinners_negative_count (fun _ => 0) [uA] (-1) (by decide)⟩

/-
  Conversation Tracker: telegram/telegram.go.

  `processUpdate` reads the stage for `(chatID, currentEventID)` under the
  mutex (`getState`), dispatches on it, and possibly writes a new stage
  under the mutex (`setState`).  The store call `queries.CreateUser` is an
  external collaborator; its outcome is injected as a `StoreResult` oracle.
  The active event id is fixed during a call (the claims all fix the active
  event), so `getState`/`setState` are modelled with an explicit `eventID`
  argument in place of `config.GetCurrentEventID()`.
-/

/-- Go: `const ( _ State = iota; Started; WaitingForName; Done )`. -/
inductive State where
  | Started
  | WaitingForName
  | Done
deriving DecidableEq

/-- The numeric value of a stage in the Go source (`State int64`, iota
starting at 1), giving the order Started < WaitingForName < Done. -/
def State.val : State → Int
  | .Started => 1
  | .WaitingForName => 2
  | .Done => 3

/-- Go: `type StateKey struct { ChatID int64; EventID int64 }`. -/
structure StateKey where
  ChatID : Int
  EventID : Int
deriving DecidableEq

/-- The in-memory stage map `state map[StateKey]State`: absent keys are
`none`. -/
def StateMap : Type := StateKey → Option State

/-- `getState` (telegram.go lines 130-144): look the key up under the mutex
and default to `Started` when absent. -/
def getState (m : StateMap) (chatID eventID : Int) : State :=
  match m ⟨chatID, eventID⟩ with
  | some s => s
  | none => State.Started

/-- `setState` (telegram.go lines 146-156): store the stage for the key
under the mutex. -/
def setState (m : StateMap) (chatID eventID : Int) (s : State) : StateMap :=
  fun k => if k = ⟨chatID, eventID⟩ then some s else m k

/-- Outcome of `queries.CreateUser`, as seen by `processUpdate`: success, or
an error carrying `err.Error()`. -/
inductive StoreResult where
  | ok
  | storeErr (msg : String)

/-- Go: the `REGISTERED_ERROR` constant (telegram.go line 16), the exact
error text of a violation of the `unique_tg_event_id` constraint. -/
def REGISTERED_ERROR : String :=
  "pq: duplicate key value violates unique constraint \x22unique_tg_event_id\x22"

/-- Reply of the `WaitingForName` branch on the restart command. -/
def waitingReply : String := "Вже чекаю на твоє ім\x27я!"

/-- Reply on a successful registrant write. -/
def successReply : String := "Дякую! Ти успішно зареєстрований."

/-- Reply on the duplicate-key conflict and in the `Done` stage. -/
def alreadyRegisteredReply : String := "Ти вже зареєстрований!"

/-- Reply on any other store failure. -/
def tryAgainReply : String := "Сталася помилка. Спробуй ще раз."

/-- The welcome prompt built in `Start` (telegram.go line 64), templated
with the active event's name via `fmt.Sprintf`. -/
def welcomeMessage (eventName : String) : String :=
  "Привіт! Я бот для реєстрації на івент ФІТКІ \x22" ++ eventName ++
    "\x22.\n\nВведи своє прізвище та ім\x27я, щоб зареєструватися."

/-- What one call of `processUpdate` produced: the outbound reply, whether a
`CreateUser` store write was attempted, and the stage map afterwards. -/
structure ProcessResult where
  reply : String
  wroteAttempted : Bool
  map : StateMap

/-- `processUpdate` (telegram.go lines 83-128) for a message update, with
the active event fixed.  Faithful points: in the `WaitingForName`
non-restart branch the store write is attempted and `setState(Done)` at
line 118 runs unconditionally afterwards — on success a redundant second
`setState(Done)` (line 116) precedes it; on the restart command and in the
`Done` stage no `setState` call is made, so the map is returned unchanged. -/
def processUpdate (welcome : String) (m : StateMap) (chatID eventID : Int)
    (text : String) (store : StoreResult) : ProcessResult :=
  match getState m chatID eventID with
  | .Started =>
      ⟨welcome, false, setState m chatID eventID .WaitingForName⟩
  | .WaitingForName =>
      if text = "/start" then
        ⟨waitingReply, false, m⟩
      else
        match store with
        | .ok =>
            let m1 := setState m chatID eventID .Done
            ⟨successReply, true, setState m1 chatID eventID .Done⟩
        | .storeErr msg =>
            if msg = REGISTERED_ERROR then
              ⟨alreadyRegisteredReply, true, setState m chatID eventID .Done⟩
            else
              ⟨tryAgainReply, true, setState m chatID eventID .Done⟩
  | .Done => ⟨alreadyRegisteredReply, false, m⟩

/-- Reading a key right after writing it returns the written stage. -/
theorem getState_setState_self (m : StateMap) (c e : Int) (s : State) :
    getState (setState m c e s) c e = s := by
  unfold getState setState
  rw [if_pos rfl]

/-- Writing one key leaves the stage read at any key as it was, except at
the written key, where it is the written stage. -/
theorem getState_setState (m : StateMap) (c e : Int) (s : State) (c2 e2 : Int) :
    getState (setState m c e s) c2 e2 =
      if (StateKey.mk c2 e2) = ⟨c, e⟩ then s else getState m c2 e2 := by
  unfold getState setState
  by_cases h : (StateKey.mk c2 e2) = ⟨c, e⟩
  · rw [if_pos h, if_pos h]
  · rw [if_neg h, if_neg h]

/-- Writing the same key twice keeps only the second write. -/
theorem setState_setState (m : StateMap) (c e : Int) (a b : State) :
    setState (setState m c e a) c e b = setState m c e b := by
  funext k
  unfold setState
  by_cases h : k = (⟨c, e⟩ : StateKey)
  · rw [if_pos h, if_pos h]
  · rw [if_neg h, if_neg h, if_neg h]

/-- Branch reduction: in the `Started` stage the bot replies with the
welcome prompt, attempts no write and moves the key to `WaitingForName`. -/
theorem processUpdate_started (w : String) (m : StateMap) (c e : Int)
    (t : String) (s : StoreResult) (h : getState m c e = State.Started) :
    processUpdate w m c e t s = ⟨w, false, setState m c e State.WaitingForName⟩ := by
  unfold processUpdate
  rw [h]

/-- Branch reduction: in the `Done` stage the bot replies "already
registered", attempts no write and leaves the map untouched. -/
theorem processUpdate_done (w : String) (m : StateMap) (c e : Int)
    (t : String) (s : StoreResult) (h : getState m c e = State.Done) :
    processUpdate w m c e t s = ⟨alreadyRegisteredReply, false, m⟩ := by
  unfold processUpdate
  rw [h]

/-- Branch reduction: the restart command in the `WaitingForName` stage. -/
theorem processUpdate_waiting_restart (w : String) (m : StateMap) (c e : Int)
    (s : StoreResult) (h : getState m c e = State.WaitingForName) :
    processUpdate w m c e "/start" s = ⟨waitingReply, false, m⟩ := by
  unfold processUpdate
  rw [h]
  rw [if_pos rfl]

/-- Branch reduction: a non-restart message in `WaitingForName` with a
successful store write (note the two successive `setState(Done)` calls of
lines 116 and 118). -/
theorem processUpdate_waiting_ok (w : String) (m : StateMap) (c e : Int)
    (t : String) (ht : t ≠ "/start") (h : getState m c e = State.WaitingForName) :
    processUpdate w m c e t StoreResult.ok =
      ⟨successReply, true, setState (setState m c e State.Done) c e State.Done⟩ := by
  unfold processUpdate
  rw [h, if_neg ht]

/-- Branch reduction: a non-restart message in `WaitingForName` with a
failing store write.  The reply depends on whether the error text is the
duplicate-key text, but `setState(Done)` at line 118 runs either way. -/
theorem processUpdate_waiting_err (w : String) (m : StateMap) (c e : Int)
    (t msg : String) (ht : t ≠ "/start") (h : getState m c e = State.WaitingForName) :
    processUpdate w m c e t (StoreResult.storeErr msg) =
      ⟨if msg = REGISTERED_ERROR then alreadyRegisteredReply else tryAgainReply,
        true, setState m c e State.Done⟩ := by
  by_cases hm : msg = REGISTERED_ERROR
  · subst hm
    unfold processUpdate
    rw [h, if_neg ht]
    simp
  · unfold processUpdate
    rw [h, if_neg ht]
    simp [hm]

/-- The stage map after one call is either untouched, or the processed key
is overwritten with a stage that is no earlier than the stage that was
read, and is only ever overwritten when that stage was not `Done`. -/
theorem processUpdate_map_shape (w : String) (m : StateMap) (c e : Int)
    (t : String) (s : StoreResult) :
    (processUpdate w m c e t s).map = m ∨
      ∃ x : State, (processUpdate w m c e t s).map = setState m c e x ∧
        (getState m c e).val ≤ x.val ∧ getState m c e ≠ State.Done := by
  cases hst : getState m c e with
  | Started =>
      right
      refine ⟨State.WaitingForName, ?_, ?_, ?_⟩
      · rw [processUpdate_started w m c e t s hst]
      · decide
      · decide
  | WaitingForName =>
      by_cases ht : t = "/start"
      · left
        subst ht
        rw [processUpdate_waiting_restart w m c e s hst]
      · right
        refine ⟨State.Done, ?_, ?_, ?_⟩
        · cases s with
          | ok =>
              rw [processUpdate_waiting_ok w m c e t ht hst]
              exact setState_setState m c e State.Done State.Done
          | storeErr msg =>
              rw [processUpdate_waiting_err w m c e t msg ht hst]
        · decide
        · decide
  | Done =>
      left
      rw [processUpdate_done w m c e t s hst]

/-- C6: the stage of every (chat, event) key is monotonically
non-decreasing in the order Started < WaitingForName < Done under every
`processUpdate` call, and a key whose stage is `Done` stays `Done`
(`Done` is terminal). -/
theorem stage_monotone (w : String) (m : StateMap) (c e : Int)
    (t : String) (s : StoreResult) (c2 e2 : Int) :
    (getState m c2 e2).val ≤ (getState (processUpdate w m c e t s).map c2 e2).val ∧
      (getState m c2 e2 = State.Done →
        getState (processUpdate w m c e t s).map c2 e2 = State.Done) := by
  rcases processUpdate_map_shape w m c e t s with hmap | ⟨x, hmap, hval, hnd⟩
  · rw [hmap]
    exact ⟨le_refl _, fun h2 => h2⟩
  · rw [hmap, getState_setState]
    by_cases hk : (StateKey.mk c2 e2) = ⟨c, e⟩
    · rw [if_pos hk]
      injection hk with h1 h2
      subst h1
      subst h2
      exact ⟨hval, fun h2 => absurd h2 hnd⟩
    · rw [if_neg hk]
      exact ⟨le_refl _, fun h2 => h2⟩

/-- C6 witness: the monotonicity theorem applied to a concrete fresh map
and a concrete first message. -/
theorem stage_monotone_witness :
    (getState (fun _ => none) 1 1).val ≤
      (getState (processUpdate (welcomeMessage "Demo") (fun _ => none) 1 1 "hi"
        StoreResult.ok).map 1 1).val :=
  (stage_monotone (welcomeMessage "Demo") (fun _ => none) 1 1 "hi" StoreResult.ok 1 1).1

/-- C7: the restart command in the `WaitingForName` stage replies with the
"still waiting for your name" message, attempts no store write and returns
the map unchanged, so the stage of the key stays `WaitingForName`. -/
theorem restart_leaves_stage_unchanged (w : String) (m : StateMap) (c e : Int)
    (s : StoreResult) (hs : getState m c e = State.WaitingForName) :
    processUpdate w m c e "/start" s = ⟨waitingReply, false, m⟩ ∧
      getState (processUpdate w m c e "/start" s).map c e = State.WaitingForName ∧
      (processUpdate w m c e "/start" s).wroteAttempted = false := by
  have h := processUpdate_waiting_restart w m c e s hs
  refine ⟨h, ?_, ?_⟩
  · rw [h]
    exact hs
  · rw [h]

/-- C7 witness: the restart theorem applied to a concrete map holding
`WaitingForName` for key (1, 1). -/
theorem restart_leaves_stage_unchanged_witness :
    getState (setState (fun _ => none) 1 1 State.WaitingForName) 1 1 = State.WaitingForName ∧
      processUpdate (welcomeMessage "Demo") (setState (fun _ => none) 1 1 State.WaitingForName)
          1 1 "/start" StoreResult.ok
        = ⟨waitingReply, false, setState (fun _ => none) 1 1 State.WaitingForName⟩ :=
  ⟨by decide,
    (restart_leaves_stage_unchanged (welcomeMessage "Demo")
      (setState (fun _ => none) 1 1 State.WaitingForName) 1 1 StoreResult.ok (by decide)).1⟩

/-- C2: the claimed behaviour fails in the code.  With the stage at
`WaitingForName` and a store failure whose text is not the duplicate-key
text ("pq: connection refused"), the bot does reply with the generic
retry-later message, but `setState(Done)` at telegram.go line 118 runs
unconditionally, so the stage becomes `Done` instead of staying
`AwaitingName`: the next message is answered "already registered" with no
store write attempted, and the promised retry never happens. -/
theorem other_error_advances_stage :
    (processUpdate (welcomeMessage "Demo") (setState (fun _ => none) 1 1 State.WaitingForName)
        1 1 "Іван" (StoreResult.storeErr "pq: connection refused")).reply = tryAgainReply ∧
      getState (processUpdate (welcomeMessage "Demo")
          (setState (fun _ => none) 1 1 State.WaitingForName)
          1 1 "Іван" (StoreResult.storeErr "pq: connection refused")).map 1 1 = State.Done ∧
      (processUpdate (welcomeMessage "Demo")
          (processUpdate (welcomeMessage "Demo")
            (setState (fun _ => none) 1 1 State.WaitingForName)
            1 1 "Іван" (StoreResult.storeErr "pq: connection refused")).map
          1 1 "Іван" StoreResult.ok).reply = alreadyRegisteredReply ∧
      (processUpdate (welcomeMessage "Demo")
          (processUpdate (welcomeMessage "Demo")
            (setState (fun _ => none) 1 1 State.WaitingForName)
            1 1 "Іван" (StoreResult.storeErr "pq: connection refused")).map
          1 1 "Іван" StoreResult.ok).wroteAttempted = false := by
  decide

/-- C4: a duplicate-key failure in `WaitingForName` replies "already
registered" and moves the stage to `Done`; every subsequent message on the
key attempts no store write, keeps the stage at `Done` and keeps replying
"already registered"; a successful write likewise replies with the
confirmation and moves the stage to `Done`. -/
theorem duplicate_key_completes (w : String) (m : StateMap) (c e : Int)
    (t t2 : String) (s2 : StoreResult)
    (ht : t ≠ "/start") (hs : getState m c e = State.WaitingForName) :
    (processUpdate w m c e t (StoreResult.storeErr REGISTERED_ERROR)).reply
        = alreadyRegisteredReply ∧
      getState (processUpdate w m c e t (StoreResult.storeErr REGISTERED_ERROR)).map c e
        = State.Done ∧
      (processUpdate w (processUpdate w m c e t (StoreResult.storeErr REGISTERED_ERROR)).map
          c e t2 s2).wroteAttempted = false ∧
      getState (processUpdate w
          (processUpdate w m c e t (StoreResult.storeErr REGISTERED_ERROR)).map
          c e t2 s2).map c e = State.Done ∧
      (processUpdate w (processUpdate w m c e t (StoreResult.storeErr REGISTERED_ERROR)).map
          c e t2 s2).reply = alreadyRegisteredReply ∧
      (processUpdate w m c e t StoreResult.ok).reply = successReply ∧
      getState (processUpdate w m c e t StoreResult.ok).map c e = State.Done := by
  have h1 := processUpdate_waiting_err w m c e t REGISTERED_ERROR ht hs
  rw [if_pos rfl] at h1
  have hd : getState (processUpdate w m c e t (StoreResult.storeErr REGISTERED_ERROR)).map c e
      = State.Done := by
    rw [h1]
    exact getState_setState_self m c e State.Done
  have h2 := processUpdate_done w (processUpdate w m c e t
      (StoreResult.storeErr REGISTERED_ERROR)).map c e t2 s2 hd
  have h3 := processUpdate_waiting_ok w m c e t ht hs
  refine ⟨by rw [h1], hd, by rw [h2], by rw [h2]; exact hd, by rw [h2], by rw [h3], ?_⟩
  rw [h3]
  exact getState_setState_self (setState m c e State.Done) c e State.Done

/-- C4 witness: the duplicate-key theorem applied to a concrete map holding
`WaitingForName` for key (2, 1) and a concrete name message. -/
theorem duplicate_key_completes_witness :
    getState (setState (fun _ => none) 2 1 State.WaitingForName) 2 1 = State.WaitingForName ∧
      (processUpdate (welcomeMessage "Demo")
          (setState (fun _ => none) 2 1 State.WaitingForName) 2 1 "Іван"
          (StoreResult.storeErr REGISTERED_ERROR)).reply = alreadyRegisteredReply :=
  ⟨by decide,
    (duplicate_key_completes (welcomeMessage "Demo")
      (setState (fun _ => none) 2 1 State.WaitingForName) 2 1 "Іван" "знову" StoreResult.ok
      (by decide) (by decide)).1⟩

/-- The replies produced by processing a list of further messages
(text and store outcome) in order, threading the stage map through. -/
def repliesFrom (w : String) (c e : Int) (m : StateMap) :
    List (String × StoreResult) → List String
  | [] => []
  | (t, s) :: rest =>
      (processUpdate w m c e t s).reply ::
        repliesFrom w c e (processUpdate w m c e t s).map rest

/-- The stage map left after processing a list of further messages. -/
def mapAfter (w : String) (c e : Int) (m : StateMap) :
    List (String × StoreResult) → StateMap
  | [] => m
  | (t, s) :: rest => mapAfter w c e (processUpdate w m c e t s).map rest

/-- Once a key's stage is `Done`, any list of further messages is answered
"already registered" throughout and the map never changes again. -/
theorem done_forever (w : String) (c e : Int) (m : StateMap)
    (msgs : List (String × StoreResult)) (h : getState m c e = State.Done) :
    repliesFrom w c e m msgs = msgs.map (fun _ => alreadyRegisteredReply) ∧
      mapAfter w c e m msgs = m := by
  induction msgs generalizing m with
  | nil => exact ⟨rfl, rfl⟩
  | cons p rest ih =>
      obtain ⟨t, s⟩ := p
      have hstep := processUpdate_done w m c e t s h
      constructor
      · show (processUpdate w m c e t s).reply ::
            repliesFrom w c e (processUpdate w m c e t s).map rest
            = alreadyRegisteredReply :: rest.map (fun _ => alreadyRegisteredReply)
        rw [hstep]
        rw [(ih m h).1]
      · show mapAfter w c e (processUpdate w m c e t s).map rest = m
        rw [hstep]
        exact (ih m h).2

/-- C5: from a fresh (chat, event) key on a fixed active event, the first
message is answered with the welcome prompt templated with the event's
name, attempts no store write and moves the stage to `WaitingForName`; a
second non-restart message whose store write succeeds moves the stage to
`Done`; and every further message is answered "already registered" while
the stage stays `Done`. -/
theorem fresh_chat_sequence (eventName : String) (m0 : StateMap) (c e : Int)
    (t1 t2 : String) (s1 : StoreResult) (msgs : List (String × StoreResult))
    (hfresh : m0 ⟨c, e⟩ = none) (ht2 : t2 ≠ "/start") :
    (processUpdate (welcomeMessage eventName) m0 c e t1 s1).reply = welcomeMessage eventName ∧
      (processUpdate (welcomeMessage eventName) m0 c e t1 s1).wroteAttempted = false ∧
      getState (processUpdate (welcomeMessage eventName) m0 c e t1 s1).map c e
        = State.WaitingForName ∧
      getState (processUpdate (welcomeMessage eventName)
          (processUpdate (welcomeMessage eventName) m0 c e t1 s1).map c e t2
          StoreResult.ok).map c e = State.Done ∧
      repliesFrom (welcomeMessage eventName) c e
          (processUpdate (welcomeMessage eventName)
            (processUpdate (welcomeMessage eventName) m0 c e t1 s1).map c e t2
            StoreResult.ok).map msgs
        = msgs.map (fun _ => alreadyRegisteredReply) ∧
      getState (mapAfter (welcomeMessage eventName) c e
          (processUpdate (welcomeMessage eventName)
            (processUpdate (welcomeMessage eventName) m0 c e t1 s1).map c e t2
            StoreResult.ok).map msgs) c e = State.Done := by
  have hm0 : getState m0 c e = State.Started := by
    unfold getState
    rw [hfresh]
  have h1 := processUpdate_started (welcomeMessage eventName) m0 c e t1 s1 hm0
  have hw : getState (processUpdate (welcomeMessage eventName) m0 c e t1 s1).map c e
      = State.WaitingForName := by
    rw [h1]
    exact getState_setState_self m0 c e State.WaitingForName
  have h2 := processUpdate_waiting_ok (welcomeMessage eventName)
    (processUpdate (welcomeMessage eventName) m0 c e t1 s1).map c e t2 ht2 hw
  have hd : getState (processUpdate (welcomeMessage eventName)
      (processUpdate (welcomeMessage eventName) m0 c e t1 s1).map c e t2
      StoreResult.ok).map c e = State.Done := by
    rw [h2]
    exact getState_setState_self _ c e State.Done
  have hrest := done_forever (welcomeMessage eventName) c e
    (processUpdate (welcomeMessage eventName)
      (processUpdate (welcomeMessage eventName) m0 c e t1 s1).map c e t2
      StoreResult.ok).map msgs hd
  refine ⟨by rw [h1], by rw [h1], hw, hd, hrest.1, ?_⟩
  rw [hrest.2]
  exact hd

/-- C5 witness: the fresh-chat theorem applied to the empty map, key
(3, 1), a first "/start" message, a name message and one further message. -/
theorem fresh_chat_sequence_witness :
    ((fun _ => none : StateMap) ⟨3, 1⟩ = none) ∧
      (processUpdate (welcomeMessage "Demo") (fun _ => none) 3 1 "/start"
        StoreResult.ok).reply = welcomeMessage "Demo" :=
  ⟨rfl,
    (fresh_chat_sequence "Demo" (fun _ => none) 3 1 "/start" "Іван" StoreResult.ok
      [("привіт", StoreResult.ok)] rfl (by decide)).1⟩

/-
  Concurrency model for `processUpdate`.  Each inbound update is handled in
  its own goroutine (`go s.processUpdate(ctx, update)` in `run`).  The
  mutex in `getState` and `setState` makes each single map operation
  atomic, but nothing holds the lock across the read and the later write.
  A goroutine is therefore modelled as two atomic steps on the shared map:
  first the `getState` read (recording the observed stage), then the rest
  of the handler — the branch dispatch, the store call (which does not
  touch the map) and the `setState` write, if any.  A schedule is a list of
  booleans choosing which of two goroutines takes its next step.
-/

/-- Program counter of one goroutine running `processUpdate` on the shared
stage map: not yet past the `getState` read, past the read with the
observed stage recorded, or finished. -/
inductive ThreadPC where
  | beforeRead
  | afterRead (observed : State)
  | finished (observed : State)
deriving DecidableEq

/-- One atomic step of a goroutine processing a message `text` for key
(c, e): the locked `getState` read, then the remainder of the branch taken
on the observed stage, ending with the locked `setState` write when the
branch performs one.  (In the `WaitingForName` non-restart branch the
`setState(Done)` of line 118 runs regardless of the store outcome, so the
store oracle does not appear.) -/
def stepThread (text : String) (c e : Int) :
    ThreadPC → StateMap → ThreadPC × StateMap
  | .beforeRead, m => (.afterRead (getState m c e), m)
  | .afterRead st, m =>
      match st with
      | .Started => (.finished st, setState m c e State.WaitingForName)
      | .WaitingForName =>
          if text = "/start" then (.finished st, m)
          else (.finished st, setState m c e State.Done)
      | .Done => (.finished st, m)
  | .finished st, m => (.finished st, m)

/-- Shared-memory system: two goroutines and the stage map. -/
structure Sys where
  t1 : ThreadPC
  t2 : ThreadPC
  map : StateMap

/-- Run a schedule: `true` lets goroutine 1 take its next atomic step,
`false` lets goroutine 2. -/
def runSched (text1 text2 : String) (c e : Int) : List Bool → Sys → Sys
  | [], s => s
  | b :: rest, s =>
      if b then
        let p := stepThread text1 c e s.t1 s.map
        runSched text1 text2 c e rest ⟨p.1, s.t2, p.2⟩
      else
        let p := stepThread text2 c e s.t2 s.map
        runSched text1 text2 c e rest ⟨s.t1, p.1, p.2⟩

/-- C9 counterexample: under the schedule read-read-write-write on a fresh
key, with per-operation locking exactly as in the code, both goroutines
observe stage `Started` and both transition the key forward — the claimed
mutual exclusion of the read-write pair does not hold. -/
theorem race_both_observe_started_example :
    (runSched "Іван" "Петро" 1 1 [true, false, true, false]
        ⟨ThreadPC.beforeRead, ThreadPC.beforeRead, fun _ => none⟩).t1
      = ThreadPC.finished State.Started ∧
      (runSched "Іван" "Петро" 1 1 [true, false, true, false]
          ⟨ThreadPC.beforeRead, ThreadPC.beforeRead, fun _ => none⟩).t2
        = ThreadPC.finished State.Started ∧
      getState (runSched "Іван" "Петро" 1 1 [true, false, true, false]
          ⟨ThreadPC.beforeRead, ThreadPC.beforeRead, fun _ => none⟩).map 1 1
        = State.WaitingForName := by
  decide

/-- C9 (amended): each single map operation is atomic under the mutex, but
the read and the subsequent write of one update are not jointly mutually
exclusive: for every pair of message texts and every key there is an
interleaving of two concurrent updates on a fresh key in which both
goroutines observe `Started` and both then transition the key forward. -/
theorem race_both_observe_started (text1 text2 : String) (c e : Int) :
    ∃ sched : List Bool,
      (runSched text1 text2 c e sched
          ⟨ThreadPC.beforeRead, ThreadPC.beforeRead, fun _ => none⟩).t1
        = ThreadPC.finished State.Started ∧
      (runSched text1 text2 c e sched
          ⟨ThreadPC.beforeRead, ThreadPC.beforeRead, fun _ => none⟩).t2
        = ThreadPC.finished State.Started ∧
      getState (runSched text1 text2 c e sched
          ⟨ThreadPC.beforeRead, ThreadPC.beforeRead, fun _ => none⟩).map c e
        = State.WaitingForName := by
  refine ⟨[true, false, true, false], rfl, rfl, ?_⟩
  show getState (setState (setState (fun _ => none) c e State.WaitingForName)
      c e State.WaitingForName) c e = State.WaitingForName
  exact getState_setState_self _ c e State.WaitingForName

end GiveawayTool
